import Mathlib

/-!
Verification development for the bladeRF NIOS legacy packet dispatcher
(`pkt_legacy.c`).  The definitions below are a shallow embedding of the C
source: buffers are modelled as functions from byte index to byte value,
machine integers as `Nat` with explicit reductions modulo a power of two at
the points where the C code truncates, and the peripheral gateway (declared
in headers outside this file) as an environment of read values plus a trace
of peripheral calls emitted by the dispatcher.
-/

namespace BladeRF

/-- The two RF modules, standing for the BLADERF_MODULE_RX and
BLADERF_MODULE_TX constants used by the per-module accessors. -/
inductive RFModule where
  | rx
  | tx
deriving DecidableEq

/-- Model of `enum config_param` from pkt_legacy.c. -/
inductive ConfigParam where
  | control_reg
  | iq_corr_rx_gain
  | iq_corr_rx_phase
  | iq_corr_tx_gain
  | iq_corr_tx_phase
  | fpga_version
  | rx_timestamp
  | tx_timestamp
  | vctcxo
  | xb200_synth
  | expansion
  | expansion_dir
  | unknown
deriving DecidableEq

/-- The `config_params` array: each parameter maps to its
(start, len) descriptor, exactly the initializer in pkt_legacy.c. -/
def config_params : ConfigParam → Nat × Nat
  | .control_reg => (0, 4)
  | .iq_corr_rx_gain => (4, 2)
  | .iq_corr_rx_phase => (6, 2)
  | .iq_corr_tx_gain => (8, 2)
  | .iq_corr_tx_phase => (10, 2)
  | .fpga_version => (12, 4)
  | .rx_timestamp => (16, 8)
  | .tx_timestamp => (24, 8)
  | .vctcxo => (34, 2)
  | .xb200_synth => (36, 4)
  | .expansion => (40, 4)
  | .expansion_dir => (44, 4)
  | .unknown => (255, 0)

/-- Field `start` of a `struct config_param_info` entry. -/
def cfgStart (p : ConfigParam) : Nat := (config_params p).1

/-- Field `len` of a `struct config_param_info` entry. -/
def cfgLen (p : ConfigParam) : Nat := (config_params p).2

/-- The C array order of `config_params` (the enum declaration order),
which is the order the lookup loop scans. -/
def paramTable : List ConfigParam :=
  [.control_reg, .iq_corr_rx_gain, .iq_corr_rx_phase, .iq_corr_tx_gain,
   .iq_corr_tx_phase, .fpga_version, .rx_timestamp, .tx_timestamp,
   .vctcxo, .xb200_synth, .expansion, .expansion_dir, .unknown]

/-- The descriptor table without the UNKNOWN sentinel entry: the genuine
address-range descriptors. -/
def descTable : List ConfigParam :=
  [.control_reg, .iq_corr_rx_gain, .iq_corr_rx_phase, .iq_corr_tx_gain,
   .iq_corr_tx_phase, .fpga_version, .rx_timestamp, .tx_timestamp,
   .vctcxo, .xb200_synth, .expansion, .expansion_dir]

/-- The scan loop inside `lookup_param`: return the first table entry whose
range `start <= addr < start + len` contains the address. -/
def lookupGo (addr : Nat) : List ConfigParam → ConfigParam
  | [] => .unknown
  | p :: rest =>
      if cfgStart p ≤ addr ∧ addr < cfgStart p + cfgLen p then p
      else lookupGo addr rest

/-- `lookup_param` from pkt_legacy.c.  Total and deterministic by
construction (it is a Lean function). -/
def lookup_param (addr : Nat) : ConfigParam := lookupGo addr paramTable

/-- Powers of two for the machine integer widths involved. -/
def U16 : Nat := 2 ^ 16

def U32 : Nat := 2 ^ 32

def U64 : Nat := 2 ^ 64

/-- The peripheral gateway environment: the values the read accessors
return during the run under consideration.  The accessors themselves are
declared in devices.h / fpga_version.h; the dispatcher only calls them. -/
structure Env where
  control_reg : Nat
  iqbal_gain : RFModule → Nat
  iqbal_phase : RFModule → Nat
  fpga_version : Nat
  time_tamer : RFModule → Nat
  expansion_port : Nat
  expansion_port_dir : Nat
  lms6 : Nat → Nat
  si5338 : Nat → Nat

/-- One peripheral gateway call made by the dispatcher, recorded with the
arguments passed at the call site. -/
inductive Effect where
  | control_reg_read
  | iqbal_get_gain (m : RFModule)
  | iqbal_get_phase (m : RFModule)
  | fpga_version_read
  | time_tamer_read (m : RFModule)
  | expansion_port_read
  | expansion_port_get_direction
  | lms6_read (a : Nat)
  | si5338_read (a : Nat)
  | control_reg_write (v : Nat)
  | iqbal_set_gain (m : RFModule) (v : Nat)
  | iqbal_set_phase (m : RFModule) (v : Nat)
  | time_tamer_reset (m : RFModule)
  | vctcxo_trim_dac_write (v : Nat)
  | adf4351_write (v : Nat)
  | expansion_port_write (v : Nat)
  | expansion_port_set_direction (v : Nat)
  | lms6_write (a : Nat) (d : Nat)
  | si5338_write (a : Nat) (d : Nat)
deriving DecidableEq

/-- Whether a gateway call mutates a peripheral (a write accessor). -/
def isWriteEffect : Effect → Bool
  | .control_reg_read => false
  | .iqbal_get_gain _ => false
  | .iqbal_get_phase _ => false
  | .fpga_version_read => false
  | .time_tamer_read _ => false
  | .expansion_port_read => false
  | .expansion_port_get_direction => false
  | .lms6_read _ => false
  | .si5338_read _ => false
  | _ => true

/-- `perform_config_read`: the value assigned to the `uint64_t payload`
together with the gateway call made, per parameter.  The VCTCXO and XB-200
branches return a fixed zero without touching hardware, and the invalid
parameter branch returns `(uint64_t) -1`. -/
def perform_config_read (env : Env) : ConfigParam → Nat × List Effect
  | .control_reg => (env.control_reg % U64, [.control_reg_read])
  | .iq_corr_rx_gain => (env.iqbal_gain .rx % U64, [.iqbal_get_gain .rx])
  | .iq_corr_rx_phase => (env.iqbal_phase .rx % U64, [.iqbal_get_phase .rx])
  | .iq_corr_tx_gain => (env.iqbal_gain .tx % U64, [.iqbal_get_gain .tx])
  | .iq_corr_tx_phase => (env.iqbal_phase .tx % U64, [.iqbal_get_phase .tx])
  | .fpga_version => (env.fpga_version % U64, [.fpga_version_read])
  | .rx_timestamp => (env.time_tamer .rx % U64, [.time_tamer_read .rx])
  | .tx_timestamp => (env.time_tamer .tx % U64, [.time_tamer_read .tx])
  | .vctcxo => (0, [])
  | .xb200_synth => (0, [])
  | .expansion => (env.expansion_port % U64, [.expansion_port_read])
  | .expansion_dir => (env.expansion_port_dir % U64, [.expansion_port_get_direction])
  | .unknown => (U64 - 1, [])

/-- `perform_config_write`: the gateway call made for a completed write,
with the truncation each call site applies to the accumulated payload.
The FPGA version branch and the invalid parameter branch only log a
diagnostic and make no peripheral call; the timestamp branches trigger a
counter reset and pass no value. -/
def perform_config_write (p : ConfigParam) (payload : Nat) : List Effect :=
  match p with
  | .control_reg => [.control_reg_write (payload % U32)]
  | .iq_corr_rx_gain => [.iqbal_set_gain .rx (payload % U16)]
  | .iq_corr_rx_phase => [.iqbal_set_phase .rx (payload % U16)]
  | .iq_corr_tx_gain => [.iqbal_set_gain .tx (payload % U16)]
  | .iq_corr_tx_phase => [.iqbal_set_phase .tx (payload % U16)]
  | .fpga_version => []
  | .rx_timestamp => [.time_tamer_reset .rx]
  | .tx_timestamp => [.time_tamer_reset .tx]
  | .vctcxo => [.vctcxo_trim_dac_write (payload % U16)]
  | .xb200_synth => [.adf4351_write (payload % U32)]
  | .expansion => [.expansion_port_write payload]
  | .expansion_dir => [.expansion_port_set_direction payload]
  | .unknown => []

/-- Pointwise update of a byte buffer modelled as a function. -/
def upd (f : Nat → Nat) (i v : Nat) : Nat → Nat :=
  fun j => if j = i then v else f j

/-- The static transfer state kept by `legacy_config_read` respectively
`legacy_config_write`: the active parameter, the byte counter `n`
(bytes consumed so far), and the cached / accumulated `uint64_t payload`. -/
structure RWState where
  param : ConfigParam
  n : Nat
  payload : Nat
deriving DecidableEq

/-- The idle read state, which is also the initial value of the read-path
statics (`param = CONFIG_UNKNOWN`, `n = 0`, `payload = 0`). -/
def idleRead : RWState := ⟨.unknown, 0, 0⟩

/-- Result of one config-path call: the response buffer, the new transfer
state, and the peripheral calls made. -/
structure ConfigOut where
  resp : Nat → Nat
  st : RWState
  effs : List Effect

/-- `PAYLOAD_IDX` (= `ADDR_IDX`).  The payload starts at request byte 2. -/
def PAYLOAD_IDX : Nat := 2

/-- `DATA_IDX` = `ADDR_IDX + 1`. -/
def DATA_IDX : Nat := 3

/-- The `for` loop of `legacy_config_read`.  `fuel` is the remaining trip
count (`count - i`), `idx` the buffer index of the current tuple address
byte.  On `n = 0` the parameter is resolved from the FIRST tuple address
(`b->req[PAYLOAD_IDX]`) and its value fetched through the gateway; every
iteration echoes the address minus the parameter start (as a `uint8_t`
subtraction) and emits payload byte `n`; when `n + 1` reaches the length
the statics are reset and the loop `break`s. -/
def readLoop (env : Env) (req : Nat → Nat) :
    Nat → Nat → (Nat → Nat) → RWState → List Effect → ConfigOut
  | 0, _, resp, st, effs => ⟨resp, st, effs⟩
  | fuel + 1, idx, resp, st, effs =>
      let st1 : RWState :=
        if st.n = 0 then
          ⟨lookup_param (req PAYLOAD_IDX % 256), 0,
           (perform_config_read env (lookup_param (req PAYLOAD_IDX % 256))).1⟩
        else st
      let effs1 : List Effect :=
        if st.n = 0 then
          effs ++ (perform_config_read env (lookup_param (req PAYLOAD_IDX % 256))).2
        else effs
      let resp1 : Nat → Nat :=
        upd (upd resp idx ((req idx % 256 + 256 - cfgStart st1.param) % 256))
          (idx + 1) ((st1.payload >>> (st1.n * 8)) % 256)
      if cfgLen st1.param ≤ st1.n + 1 then ⟨resp1, idleRead, effs1⟩
      else readLoop env req fuel (idx + 2) resp1 ⟨st1.param, st1.n + 1, st1.payload⟩ effs1

/-- `legacy_config_read`: run the loop over `count` tuples starting at the
payload offset with an empty call trace. -/
def legacy_config_read (env : Env) (count : Nat) (req resp : Nat → Nat)
    (st : RWState) : ConfigOut :=
  readLoop env req count PAYLOAD_IDX resp st []

/-- The value OR-ed into `payload` by `payload |= (*req_data) << (n * 8)`.
The byte operand is promoted to 32-bit `int`; the NIOS II shifter uses the
shift amount modulo 32, and the signed 32-bit result is converted to
`uint64_t` with sign extension. -/
def shiftContrib (b n : Nat) : Nat :=
  let x := b % 256 * 2 ^ (n * 8 % 32) % U32
  if x < 2 ^ 31 then x else U64 - U32 + x

/-- The `for` loop of `legacy_config_write`: while tuples remain and
`n < len`, echo the relative address, zero the response data byte, OR the
data byte (as shifted by the 32-bit `int` arithmetic of the source) into
the accumulated payload, and advance. -/
def writeLoop (req : Nat → Nat) :
    Nat → Nat → (Nat → Nat) → RWState → ConfigOut
  | 0, _, resp, st => ⟨resp, st, []⟩
  | fuel + 1, idx, resp, st =>
      if st.n < cfgLen st.param then
        writeLoop req fuel (idx + 2)
          (upd (upd resp idx ((req idx % 256 + 256 - cfgStart st.param) % 256)) (idx + 1) 0)
          ⟨st.param, st.n + 1, st.payload ||| shiftContrib (req (idx + 1)) st.n⟩
      else ⟨resp, st, []⟩

/-- `legacy_config_write`: on `n = 0` resolve the parameter from the first
tuple address, run the loop, and if `n` has reached the length invoke
`perform_config_write` with the accumulated payload and reset `payload`
and `n` (the `param` static is left as is). -/
def legacy_config_write (count : Nat) (req resp : Nat → Nat)
    (st : RWState) : ConfigOut :=
  let st0 : RWState :=
    if st.n = 0 then ⟨lookup_param (req PAYLOAD_IDX % 256), st.n, st.payload⟩ else st
  let o := writeLoop req count PAYLOAD_IDX resp st0
  if cfgLen o.st.param ≤ o.st.n then
    ⟨o.resp, ⟨o.st.param, 0, 0⟩, perform_config_write o.st.param o.st.payload⟩
  else ⟨o.resp, o.st, []⟩

/-- The process-wide dispatcher state: the read-path statics and the
write-path statics, which the C source keeps as two separate sets of
`static` variables inside `legacy_config_read` and `legacy_config_write`. -/
structure DState where
  rd : RWState
  wr : RWState
deriving DecidableEq

/-- Firmware-start value of the statics: the read path initializes
`param = CONFIG_UNKNOWN` explicitly; the write path `param` static has no
initializer, so it is zero-initialized to the first enumerator. -/
def initState : DState := ⟨⟨.unknown, 0, 0⟩, ⟨.control_reg, 0, 0⟩⟩

/-- Result of one dispatcher invocation. -/
structure PktOut where
  resp : Nat → Nat
  st : DState
  effs : List Effect

/-- Device selector constants (`device` bits already masked in place). -/
def UART_PKT_DEV_CONFIG : Nat := 0x00

def UART_PKT_DEV_LMS : Nat := 0x10

def UART_PKT_DEV_SI5338 : Nat := 0x30

/-- `legacy_pkt_read`: LMS and SI5338 echo the raw address byte and store
the chip read result into the first tuple data slot; CONFIG forwards to
`legacy_config_read`; any other selector is a no-op. -/
def legacy_pkt_read (env : Env) (dev_id count : Nat) (req resp : Nat → Nat)
    (st : DState) : PktOut :=
  if dev_id = UART_PKT_DEV_LMS then
    ⟨upd (upd resp PAYLOAD_IDX (req PAYLOAD_IDX % 256))
       DATA_IDX (env.lms6 (req PAYLOAD_IDX % 256) % 256),
     st, [.lms6_read (req PAYLOAD_IDX % 256)]⟩
  else if dev_id = UART_PKT_DEV_SI5338 then
    ⟨upd (upd resp PAYLOAD_IDX (req PAYLOAD_IDX % 256))
       DATA_IDX (env.si5338 (req PAYLOAD_IDX % 256) % 256),
     st, [.si5338_read (req PAYLOAD_IDX % 256)]⟩
  else if dev_id = UART_PKT_DEV_CONFIG then
    let o := legacy_config_read env count req resp st.rd
    ⟨o.resp, ⟨o.st, st.wr⟩, o.effs⟩
  else ⟨resp, st, []⟩

/-- `legacy_pkt_write`: LMS and SI5338 write the first tuple through the
chip accessor and echo the address with a zero data byte; CONFIG forwards
to `legacy_config_write`; any other selector is a no-op. -/
def legacy_pkt_write (dev_id count : Nat) (req resp : Nat → Nat)
    (st : DState) : PktOut :=
  if dev_id = UART_PKT_DEV_LMS then
    ⟨upd (upd resp PAYLOAD_IDX (req PAYLOAD_IDX % 256)) DATA_IDX 0,
     st, [.lms6_write (req PAYLOAD_IDX % 256) (req DATA_IDX % 256)]⟩
  else if dev_id = UART_PKT_DEV_SI5338 then
    ⟨upd (upd resp PAYLOAD_IDX (req PAYLOAD_IDX % 256)) DATA_IDX 0,
     st, [.si5338_write (req PAYLOAD_IDX % 256) (req DATA_IDX % 256)]⟩
  else if dev_id = UART_PKT_DEV_CONFIG then
    let o := legacy_config_write count req resp st.wr
    ⟨o.resp, ⟨st.rd, o.st⟩, o.effs⟩
  else ⟨resp, st, []⟩

/-- Modelled from the spec: `PKT_CFG_IDX`, the request byte index of the
control byte, comes from pkt_handler.h which is not part of the sources at
hand; section 6 of the design fixes the control byte at request byte 0. -/
def PKT_CFG_IDX : Nat := 0

/-- `pkt_legacy`: decode the control byte (count bits 0-2, device bits
4-5, direction bits 6-7) and dispatch.  The read bit is tested first, so a
frame with both direction bits set takes the read path. -/
def pkt_legacy (env : Env) (req resp : Nat → Nat) (st : DState) : PktOut :=
  let cfg := req PKT_CFG_IDX % 256
  let dev_id := cfg &&& 0x30
  let count := cfg &&& 0x7
  if cfg &&& 0x80 ≠ 0 then
    legacy_pkt_read env dev_id count req resp st
  else if cfg &&& 0x40 ≠ 0 then
    legacy_pkt_write dev_id count req resp st
  else ⟨resp, st, []⟩

/-- Run a sequence of request frames through the dispatcher, threading the
static state; each frame gets a fresh caller-zeroed response buffer. -/
def runFrames (env : Env) : List (Nat → Nat) → DState → DState
  | [], st => st
  | f :: rest, st => runFrames env rest (pkt_legacy env f (fun _ => 0) st).st

end BladeRF

namespace BladeRF

/-- A concrete all-zero environment, used for closed evaluations. -/
def env0 : Env := ⟨0, fun _ => 0, fun _ => 0, 0, fun _ => 0, 0, 0, fun _ => 0, fun _ => 0⟩

/-- The all-zero byte buffer. -/
def zeroFn : Nat → Nat := fun _ => 0

/-- Written from the spec wording of `resolve`: search the descriptor
table and return the first descriptor whose `[start, start + length)`
range contains the address, or the UNKNOWN sentinel if none matches.
Stated separately from `lookup_param` (which is translated from the C
loop) so the two can be compared. -/
def resolveSpec (addr : Nat) : ConfigParam :=
  match descTable.find?
      (fun p => decide (cfgStart p ≤ addr ∧ addr < cfgStart p + cfgLen p)) with
  | some p => p
  | none => .unknown

set_option maxRecDepth 4096 in
/-- C1: for every 8-bit virtual address, `lookup_param` is total and
deterministic (it is a function), agrees with the spec-side resolver that
returns the first descriptor whose range contains the address and the
UNKNOWN sentinel otherwise, and the UNKNOWN sentinel has length zero. -/
theorem lookup_param_spec :
    (∀ a : Fin 256, lookup_param a.val = resolveSpec a.val) ∧
      cfgLen .unknown = 0 := by
  decide

/-- Check a relation on every adjacent pair of a list. -/
def adjPairs (r : ConfigParam → ConfigParam → Bool) : List ConfigParam → Bool
  | p :: q :: rest => r p q && adjPairs r (q :: rest)
  | _ => true

/-- Check a relation on every ordered pair of distinct list positions. -/
def allPairs (r : ConfigParam → ConfigParam → Bool) : List ConfigParam → Bool
  | [] => true
  | p :: rest => rest.all (r p) && allPairs r rest

/-- The descriptor table is listed in ascending `start` order. -/
def tableSorted : Bool :=
  adjPairs (fun p q => decide (cfgStart p < cfgStart q)) descTable

/-- The descriptor address ranges are pairwise disjoint. -/
def tableNonOverlapping : Bool :=
  allPairs
    (fun p q =>
      decide (cfgStart p + cfgLen p ≤ cfgStart q ∨ cfgStart q + cfgLen q ≤ cfgStart p))
    descTable

/-- Every consecutive descriptor pair is contiguous: the later start
equals the earlier start plus its length. -/
def tableContiguous : Bool :=
  adjPairs (fun p q => decide (cfgStart q = cfgStart p + cfgLen p)) descTable

/-- C3 counterexample: the claimed conjunction is false, because the table
is not contiguous: CONFIG_TX_TIMESTAMP covers `[24, 32)` but CONFIG_VCTXCO
starts at 34, leaving addresses 32 and 33 unmapped. -/
theorem table_contiguity_fails :
    ¬ (tableSorted = true ∧ tableNonOverlapping = true ∧
        tableContiguous = true) := by
  decide

/-- C3 amended: the table is ordered by ascending start and its ranges are
pairwise non-overlapping, and every consecutive pair is contiguous except
CONFIG_TX_TIMESTAMP to CONFIG_VCTXCO, where a two-byte gap (addresses 32
and 33) separates the ranges. -/
theorem table_layout_facts :
    tableSorted = true ∧ tableNonOverlapping = true ∧
    adjPairs
      (fun p q =>
        decide (cfgStart q = cfgStart p + cfgLen p) ||
          (p == ConfigParam.tx_timestamp && q == ConfigParam.vctcxo))
      descTable = true ∧
    cfgStart .vctcxo = cfgStart .tx_timestamp + cfgLen .tx_timestamp + 2 := by
  decide

end BladeRF

namespace BladeRF

/-- A CONFIG read frame: control byte 0x83 (READ, device CONFIG, count 3),
first tuple address 16 (the 8-byte RX timestamp parameter). -/
def cexReadFrame : Nat → Nat := fun i => if i = 0 then 0x83 else if i = 2 then 16 else 0

/-- A CONFIG write frame: control byte 0x43 (WRITE, device CONFIG,
count 3), first tuple address 16 (the 8-byte RX timestamp parameter). -/
def cexWriteFrame : Nat → Nat := fun i => if i = 0 then 0x43 else if i = 2 then 16 else 0

set_option maxRecDepth 4096 in
/-- C4 counterexample: the read and write paths keep separate static
transfer states, so a state in which both a multi-byte read transfer and a
multi-byte write transfer have consumed bytes IS reachable: dispatch a
count-3 CONFIG read of the 8-byte RX timestamp, then a count-3 CONFIG
write to it; afterwards both byte counters are 3. -/
theorem read_write_in_flight_together :
    0 < (runFrames env0 [cexReadFrame, cexWriteFrame] initState).rd.n ∧
      0 < (runFrames env0 [cexReadFrame, cexWriteFrame] initState).wr.n := by
  decide

/-- The read path never touches the write-path statics. -/
lemma legacy_pkt_read_wr (env : Env) (dev_id count : Nat) (req resp : Nat → Nat)
    (st : DState) : (legacy_pkt_read env dev_id count req resp st).st.wr = st.wr := by
  unfold legacy_pkt_read
  repeat' split
  all_goals rfl

/-- The write path never touches the read-path statics. -/
lemma legacy_pkt_write_rd (dev_id count : Nat) (req resp : Nat → Nat)
    (st : DState) : (legacy_pkt_write dev_id count req resp st).st.rd = st.rd := by
  unfold legacy_pkt_write
  repeat' split
  all_goals rfl

/-- C4 amended: the Transfer State is not one shared state machine but two
disjoint ones; each dispatcher invocation mutates at most one of them (a
read frame leaves the write statics unchanged and a write frame leaves the
read statics unchanged), so within each path at most one transfer is in
flight, while a read and a write transfer can be in flight simultaneously
(see the counterexample). -/
theorem transfer_states_disjoint (env : Env) (req resp : Nat → Nat) (st : DState) :
    (pkt_legacy env req resp st).st.wr = st.wr ∨
      (pkt_legacy env req resp st).st.rd = st.rd := by
  simp only [pkt_legacy]
  split
  · exact Or.inl (legacy_pkt_read_wr ..)
  · split
    · exact Or.inr (legacy_pkt_write_rd ..)
    · exact Or.inl rfl

/-- First write frame of the C2 failing input: control byte 0x44 (WRITE,
device CONFIG, count 4), address 16 (RX timestamp), data bytes 0,0,0,0. -/
def bugFrame1 : Nat → Nat := fun i => if i = 0 then 0x44 else if i = 2 then 16 else 0

/-- Second write frame of the C2 failing input: count 4, addresses
20..23, data bytes 1,0,0,0 — so the full 8-byte stream has byte 4 = 1. -/
def bugFrame2 : Nat → Nat :=
  fun i => if i = 0 then 0x44 else if i = 2 then 20 else if i = 3 then 1 else 0

set_option maxRecDepth 4096 in
/-- C2 (code bug, evaluated at the failing input): writing the 8-byte RX
timestamp parameter with data bytes 0,0,0,0,1,0,0,0 (byte 4 = 1) across
two count-4 frames.  After the first frame the write statics hold
`n = 4`.  The second frame runs the loop from `n = 4`; because line 350 of
pkt_legacy.c shifts the promoted 32-bit `int` operand (the shift amount is
reduced modulo 32 by the target), the contribution of data byte 4 is
`1 <<< 0 = 1`: the assembled payload handed to `perform_config_write` is 1,
whose byte 4 is 0, not the 1 the spec requires — the byte landed at
byte 0 instead. -/
theorem write_shift_bug_eval :
    (pkt_legacy env0 bugFrame1 zeroFn initState).st.wr = ⟨.rx_timestamp, 4, 0⟩ ∧
    (writeLoop bugFrame2 4 PAYLOAD_IDX zeroFn ⟨.rx_timestamp, 4, 0⟩).st.payload = 1 ∧
    ((writeLoop bugFrame2 4 PAYLOAD_IDX zeroFn ⟨.rx_timestamp, 4, 0⟩).st.payload >>> 32) % 256 = 0 ∧
    shiftContrib 1 4 = 1 ∧
    (pkt_legacy env0 bugFrame2 zeroFn
        (pkt_legacy env0 bugFrame1 zeroFn initState).st).effs = [.time_tamer_reset .rx] := by
  decide

set_option maxRecDepth 4096 in
/-- C5 counterexample: with `count = 3` (which is at most 7) an 8-byte
parameter is NOT served in exactly 2 frames: after two count-3 read frames
of the RX timestamp only 6 of its 8 bytes have been delivered and the
transfer state is still mid-transfer, not idle. -/
theorem two_frames_insufficient_small_count :
    cfgLen (lookup_param 16) = 8 ∧
    (legacy_config_read env0 3 cexReadFrame zeroFn
        (legacy_config_read env0 3 cexReadFrame zeroFn idleRead).st).st.n = 6 ∧
    (legacy_config_read env0 3 cexReadFrame zeroFn
        (legacy_config_read env0 3 cexReadFrame zeroFn idleRead).st).st ≠ idleRead := by
  decide

end BladeRF

namespace BladeRF

/-- C8: a frame whose control byte has neither direction bit set, and a
frame whose device selector is the reserved value 2 (masked selector
0x20, the only selector matching no case), produce no peripheral call,
leave the response buffer untouched and leave the statics unchanged. -/
theorem noop_frames_unchanged (env : Env) (req resp : Nat → Nat) (st : DState)
    (h : ((req PKT_CFG_IDX % 256) &&& 0x80 = 0 ∧ (req PKT_CFG_IDX % 256) &&& 0x40 = 0) ∨
      (req PKT_CFG_IDX % 256) &&& 0x30 = 0x20) :
    pkt_legacy env req resp st = ⟨resp, st, []⟩ := by
  rcases h with ⟨h1, h2⟩ | hdev
  · simp [pkt_legacy, h1, h2]
  · simp [pkt_legacy, legacy_pkt_read, legacy_pkt_write, hdev,
      UART_PKT_DEV_LMS, UART_PKT_DEV_SI5338, UART_PKT_DEV_CONFIG]

/-- C8 witness: the all-zero frame (control byte 0, no direction bits) is
dispatched as a no-op. -/
theorem noop_frames_unchanged_witness :
    ((zeroFn PKT_CFG_IDX % 256) &&& 0x80 = 0 ∧ (zeroFn PKT_CFG_IDX % 256) &&& 0x40 = 0) ∧
    pkt_legacy env0 zeroFn zeroFn initState = ⟨zeroFn, initState, []⟩ := by
  refine ⟨⟨by decide, by decide⟩, ?_⟩
  exact noop_frames_unchanged env0 zeroFn zeroFn initState (Or.inl ⟨by decide, by decide⟩)

/-- C9: a CONFIG access started from idle whose first tuple address lies
outside every descriptor range resolves to the UNKNOWN parameter of
length zero; a read caches the all-ones sentinel, so the single serviced
tuple carries data byte 0xFF, the transfer resets to idle at once, no
gateway call is made and response bytes past the first tuple stay
untouched; a write runs zero loop iterations and lands in the
invalid-parameter branch of the write accessor, which makes no
peripheral call. -/
theorem unknown_addr_access (env : Env) (c : Nat) (req reqw resp respw : Nat → Nat)
    (hc : 1 ≤ c)
    (hr : lookup_param (req PAYLOAD_IDX % 256) = .unknown)
    (hw : lookup_param (reqw PAYLOAD_IDX % 256) = .unknown) :
    cfgLen .unknown = 0 ∧
    perform_config_read env .unknown = (U64 - 1, []) ∧
    (legacy_config_read env c req resp idleRead).resp DATA_IDX = 255 ∧
    (legacy_config_read env c req resp idleRead).st = idleRead ∧
    (legacy_config_read env c req resp idleRead).effs = [] ∧
    (∀ j, 4 ≤ j → (legacy_config_read env c req resp idleRead).resp j = resp j) ∧
    (∀ q : ConfigParam,
      (legacy_config_write c reqw respw ⟨q, 0, 0⟩).effs = [] ∧
      (legacy_config_write c reqw respw ⟨q, 0, 0⟩).st = idleRead ∧
      (legacy_config_write c reqw respw ⟨q, 0, 0⟩).resp = respw) := by
  obtain ⟨d, rfl⟩ : ∃ d, c = d + 1 := ⟨c - 1, by omega⟩
  refine ⟨by decide, rfl, ?_, ?_, ?_, ?_, ?_⟩
  · simp only [legacy_config_read, readLoop, idleRead, hr]
    norm_num [cfgLen, config_params, perform_config_read, upd, DATA_IDX,
      PAYLOAD_IDX, U64]
  · simp only [legacy_config_read, readLoop, idleRead, hr]
    simp [cfgLen, config_params]
  · simp only [legacy_config_read, readLoop, idleRead, hr]
    simp [cfgLen, config_params, perform_config_read]
  · intro j hj
    simp only [legacy_config_read, readLoop, idleRead, hr]
    simp only [cfgLen, config_params, PAYLOAD_IDX]
    norm_num
    simp only [upd]
    rw [if_neg (by omega : ¬ j = 3), if_neg (by omega : ¬ j = 2)]
  · intro q
    refine ⟨?_, ?_, ?_⟩ <;>
      simp [legacy_config_write, writeLoop, hw, cfgLen, config_params,
        perform_config_write, idleRead]

end BladeRF

namespace BladeRF

/-- Request whose first tuple address is 50, which lies in the unmapped
region above the expansion-direction range. -/
def unkReq : Nat → Nat := fun i => if i = 2 then 50 else 0

/-- C9 witness: a count-1 CONFIG read and a CONFIG write at address 50. -/
theorem unknown_addr_access_witness :
    (1 ≤ 1) ∧ lookup_param (unkReq PAYLOAD_IDX % 256) = .unknown ∧
    cfgLen ConfigParam.unknown = 0 ∧
    perform_config_read env0 .unknown = (U64 - 1, []) ∧
    (legacy_config_read env0 1 unkReq zeroFn idleRead).resp DATA_IDX = 255 ∧
    (legacy_config_read env0 1 unkReq zeroFn idleRead).st = idleRead ∧
    (legacy_config_read env0 1 unkReq zeroFn idleRead).effs = [] ∧
    (∀ j, 4 ≤ j → (legacy_config_read env0 1 unkReq zeroFn idleRead).resp j = zeroFn j) ∧
    (∀ q : ConfigParam,
      (legacy_config_write 1 unkReq zeroFn ⟨q, 0, 0⟩).effs = [] ∧
      (legacy_config_write 1 unkReq zeroFn ⟨q, 0, 0⟩).st = idleRead ∧
      (legacy_config_write 1 unkReq zeroFn ⟨q, 0, 0⟩).resp = zeroFn) := by
  refine ⟨le_refl 1, by decide, ?_⟩
  have h := unknown_addr_access env0 1 unkReq unkReq zeroFn zeroFn
    (le_refl 1) (by decide) (by decide)
  exact ⟨h.1, h.2.1, h.2.2.1, h.2.2.2.1, h.2.2.2.2.1, h.2.2.2.2.2.1, h.2.2.2.2.2.2⟩

/-- Once a read transfer is in progress (`1 ≤ n`), the loop services
exactly the remaining `len - n` bytes, resets the statics to idle, and
leaves every response byte at or beyond the serviced region unchanged. -/
lemma readLoop_untouched (env : Env) (req : Nat → Nat) :
    ∀ (fuel idx : Nat) (resp : Nat → Nat) (st : RWState) (effs : List Effect),
      1 ≤ st.n → st.n < cfgLen st.param → cfgLen st.param - st.n ≤ fuel →
      (readLoop env req fuel idx resp st effs).st = idleRead ∧
      ∀ j, idx + 2 * (cfgLen st.param - st.n) ≤ j →
        (readLoop env req fuel idx resp st effs).resp j = resp j := by
  intro fuel
  induction fuel with
  | zero =>
      intro idx resp st effs h1 h2 h3
      omega
  | succ f ih =>
      intro idx resp st effs h1 h2 h3
      have hne : ¬ st.n = 0 := by omega
      simp only [readLoop, if_neg hne]
      by_cases hbreak : cfgLen st.param ≤ st.n + 1
      · rw [if_pos hbreak]
        refine ⟨rfl, ?_⟩
        intro j hj
        have hL : cfgLen st.param - st.n = 1 := by omega
        rw [hL] at hj
        simp only [upd]
        rw [if_neg (by omega), if_neg (by omega)]
      · rw [if_neg hbreak]
        have hrec := ih (idx + 2)
          (upd (upd resp idx ((req idx % 256 + 256 - cfgStart st.param) % 256))
            (idx + 1) ((st.payload >>> (st.n * 8)) % 256))
          ⟨st.param, st.n + 1, st.payload⟩ effs
          (show 1 ≤ st.n + 1 by omega)
          (show st.n + 1 < cfgLen st.param by omega)
          (show cfgLen st.param - (st.n + 1) ≤ f by omega)
        refine ⟨hrec.1, ?_⟩
        intro j hj
        rw [hrec.2 j (show idx + 2 + 2 * (cfgLen st.param - (st.n + 1)) ≤ j by omega)]
        simp only [upd]
        rw [if_neg (by omega), if_neg (by omega)]

/-- C6: starting a CONFIG read from idle with at least as many tuples in
the frame as the resolved parameter has bytes: the moment the byte
counter reaches the length, the statics are reset to
`(CONFIG_UNKNOWN, 0, 0)` and the remaining tuples of the frame are not
serviced — every response byte past the serviced region keeps its prior
value. -/
theorem read_completion_resets (env : Env) (count : Nat) (req resp : Nat → Nat)
    (h1 : 1 ≤ cfgLen (lookup_param (req PAYLOAD_IDX % 256)))
    (h2 : cfgLen (lookup_param (req PAYLOAD_IDX % 256)) ≤ count) :
    (legacy_config_read env count req resp idleRead).st = idleRead ∧
    ∀ j, PAYLOAD_IDX + 2 * cfgLen (lookup_param (req PAYLOAD_IDX % 256)) ≤ j →
      (legacy_config_read env count req resp idleRead).resp j = resp j := by
  obtain ⟨d, rfl⟩ : ∃ d, count = d + 1 := ⟨count - 1, by omega⟩
  simp only [legacy_config_read, readLoop, idleRead, if_pos rfl, if_true,
    ite_true, eq_self_iff_true]
  by_cases hbreak : cfgLen (lookup_param (req PAYLOAD_IDX % 256)) ≤ 0 + 1
  · rw [if_pos (by simpa using hbreak)]
    refine ⟨rfl, ?_⟩
    intro j hj
    have hL : cfgLen (lookup_param (req PAYLOAD_IDX % 256)) = 1 := by omega
    rw [hL] at hj
    simp only [upd]
    rw [if_neg (by omega), if_neg (by omega)]
  · rw [if_neg (by simpa using hbreak)]
    have hrec := readLoop_untouched env req d (PAYLOAD_IDX + 2)
      (upd (upd resp PAYLOAD_IDX
          ((req PAYLOAD_IDX % 256 + 256 -
            cfgStart (lookup_param (req PAYLOAD_IDX % 256))) % 256))
        (PAYLOAD_IDX + 1)
        (((perform_config_read env (lookup_param (req PAYLOAD_IDX % 256))).1 >>> (0 * 8)) % 256))
      ⟨lookup_param (req PAYLOAD_IDX % 256), 0 + 1,
        (perform_config_read env (lookup_param (req PAYLOAD_IDX % 256))).1⟩
      ([] ++ (perform_config_read env (lookup_param (req PAYLOAD_IDX % 256))).2)
      (show 1 ≤ 0 + 1 by omega)
      (show 0 + 1 < cfgLen (lookup_param (req PAYLOAD_IDX % 256)) by omega)
      (show cfgLen (lookup_param (req PAYLOAD_IDX % 256)) - (0 + 1) ≤ d by omega)
    refine ⟨hrec.1, ?_⟩
    intro j hj
    rw [hrec.2 j (show PAYLOAD_IDX + 2 +
        2 * (cfgLen (lookup_param (req PAYLOAD_IDX % 256)) - (0 + 1)) ≤ j by omega)]
    simp only [upd]
    rw [if_neg (by omega), if_neg (by omega)]

/-- C6 witness: a count-7 read of the 4-byte control register (address 0)
ends idle and leaves response bytes from index 10 on unchanged. -/
theorem read_completion_resets_witness :
    (1 ≤ cfgLen (lookup_param (zeroFn PAYLOAD_IDX % 256)) ∧
      cfgLen (lookup_param (zeroFn PAYLOAD_IDX % 256)) ≤ 7) ∧
    (legacy_config_read env0 7 zeroFn zeroFn idleRead).st = idleRead ∧
    ∀ j, PAYLOAD_IDX + 2 * cfgLen (lookup_param (zeroFn PAYLOAD_IDX % 256)) ≤ j →
      (legacy_config_read env0 7 zeroFn zeroFn idleRead).resp j = zeroFn j :=
  ⟨⟨by decide, by decide⟩, read_completion_resets env0 7 zeroFn zeroFn (by decide) (by decide)⟩

end BladeRF

namespace BladeRF

/-- C7: a frame addressed to the TRANSCEIVER (LMS) or CLOCK-SYNTH
(SI5338) device services exactly one tuple whatever the count field says:
only the first tuple slots of the response are written, the raw address
byte is echoed, a read stores the result of the per-chip read accessor
and makes exactly that one gateway call, a write calls the per-chip write
accessor with the request address and data bytes and zeroes the response
data slot, and the config transfer statics are neither mutated nor read
(the response and call trace are the same for every static state). -/
theorem chip_access_single_tuple (env : Env) (req resp : Nat → Nat) (st : DState)
    (hdev : (req PKT_CFG_IDX % 256) &&& 0x30 = UART_PKT_DEV_LMS ∨
      (req PKT_CFG_IDX % 256) &&& 0x30 = UART_PKT_DEV_SI5338)
    (hdir : (req PKT_CFG_IDX % 256) &&& 0x80 ≠ 0 ∨
      (req PKT_CFG_IDX % 256) &&& 0x40 ≠ 0) :
    (pkt_legacy env req resp st).st = st ∧
    (∀ j, j ≠ PAYLOAD_IDX → j ≠ DATA_IDX → (pkt_legacy env req resp st).resp j = resp j) ∧
    (pkt_legacy env req resp st).resp PAYLOAD_IDX = req PAYLOAD_IDX % 256 ∧
    (∀ st2 : DState,
      (pkt_legacy env req resp st2).resp = (pkt_legacy env req resp st).resp ∧
      (pkt_legacy env req resp st2).effs = (pkt_legacy env req resp st).effs) ∧
    (if (req PKT_CFG_IDX % 256) &&& 0x80 ≠ 0 then
      (if (req PKT_CFG_IDX % 256) &&& 0x30 = UART_PKT_DEV_LMS then
        (pkt_legacy env req resp st).resp DATA_IDX = env.lms6 (req PAYLOAD_IDX % 256) % 256 ∧
        (pkt_legacy env req resp st).effs = [.lms6_read (req PAYLOAD_IDX % 256)]
      else
        (pkt_legacy env req resp st).resp DATA_IDX = env.si5338 (req PAYLOAD_IDX % 256) % 256 ∧
        (pkt_legacy env req resp st).effs = [.si5338_read (req PAYLOAD_IDX % 256)])
    else
      ((pkt_legacy env req resp st).resp DATA_IDX = 0 ∧
       (if (req PKT_CFG_IDX % 256) &&& 0x30 = UART_PKT_DEV_LMS then
         (pkt_legacy env req resp st).effs =
           [.lms6_write (req PAYLOAD_IDX % 256) (req DATA_IDX % 256)]
       else
         (pkt_legacy env req resp st).effs =
           [.si5338_write (req PAYLOAD_IDX % 256) (req DATA_IDX % 256)]))) := by
  by_cases hr : (req PKT_CFG_IDX % 256) &&& 0x80 ≠ 0
  · rcases hdev with hdev | hdev
    · have hstep : ∀ st0 : DState, pkt_legacy env req resp st0 =
          ⟨upd (upd resp PAYLOAD_IDX (req PAYLOAD_IDX % 256))
            DATA_IDX (env.lms6 (req PAYLOAD_IDX % 256) % 256),
          st0, [.lms6_read (req PAYLOAD_IDX % 256)]⟩ := by
        intro st0
        simp [pkt_legacy, legacy_pkt_read, hdev, hr]
      refine ⟨by rw [hstep st], ?_, ?_, ?_, ?_⟩
      · intro j hjp hjd
        rw [hstep st]
        simp only [upd]
        rw [if_neg hjd, if_neg hjp]
      · rw [hstep st]
        simp [upd, PAYLOAD_IDX, DATA_IDX]
      · intro st2
        rw [hstep st2, hstep st]
        exact ⟨rfl, rfl⟩
      · rw [if_pos hr, if_pos hdev, hstep st]
        exact ⟨by simp [upd], rfl⟩
    · have hne : ¬ (req PKT_CFG_IDX % 256) &&& 0x30 = UART_PKT_DEV_LMS := by
        rw [hdev]; decide
      have hstep : ∀ st0 : DState, pkt_legacy env req resp st0 =
          ⟨upd (upd resp PAYLOAD_IDX (req PAYLOAD_IDX % 256))
            DATA_IDX (env.si5338 (req PAYLOAD_IDX % 256) % 256),
          st0, [.si5338_read (req PAYLOAD_IDX % 256)]⟩ := by
        intro st0
        simp [pkt_legacy, legacy_pkt_read, hdev, hr,
          UART_PKT_DEV_LMS, UART_PKT_DEV_SI5338]
      refine ⟨by rw [hstep st], ?_, ?_, ?_, ?_⟩
      · intro j hjp hjd
        rw [hstep st]
        simp only [upd]
        rw [if_neg hjd, if_neg hjp]
      · rw [hstep st]
        simp [upd, PAYLOAD_IDX, DATA_IDX]
      · intro st2
        rw [hstep st2, hstep st]
        exact ⟨rfl, rfl⟩
      · rw [if_pos hr, if_neg hne, hstep st]
        exact ⟨by simp [upd], rfl⟩
  · have hw : (req PKT_CFG_IDX % 256) &&& 0x40 ≠ 0 := hdir.resolve_left hr
    rcases hdev with hdev | hdev
    · have hstep : ∀ st0 : DState, pkt_legacy env req resp st0 =
          ⟨upd (upd resp PAYLOAD_IDX (req PAYLOAD_IDX % 256)) DATA_IDX 0,
          st0, [.lms6_write (req PAYLOAD_IDX % 256) (req DATA_IDX % 256)]⟩ := by
        intro st0
        simp [pkt_legacy, legacy_pkt_write, hdev, hr, hw]
      refine ⟨by rw [hstep st], ?_, ?_, ?_, ?_⟩
      · intro j hjp hjd
        rw [hstep st]
        simp only [upd]
        rw [if_neg hjd, if_neg hjp]
      · rw [hstep st]
        simp [upd, PAYLOAD_IDX, DATA_IDX]
      · intro st2
        rw [hstep st2, hstep st]
        exact ⟨rfl, rfl⟩
      · rw [if_neg hr, if_pos hdev, hstep st]
        exact ⟨by simp [upd], rfl⟩
    · have hne : ¬ (req PKT_CFG_IDX % 256) &&& 0x30 = UART_PKT_DEV_LMS := by
        rw [hdev]; decide
      have hstep : ∀ st0 : DState, pkt_legacy env req resp st0 =
          ⟨upd (upd resp PAYLOAD_IDX (req PAYLOAD_IDX % 256)) DATA_IDX 0,
          st0, [.si5338_write (req PAYLOAD_IDX % 256) (req DATA_IDX % 256)]⟩ := by
        intro st0
        simp [pkt_legacy, legacy_pkt_write, hdev, hr, hw,
          UART_PKT_DEV_LMS, UART_PKT_DEV_SI5338]
      refine ⟨by rw [hstep st], ?_, ?_, ?_, ?_⟩
      · intro j hjp hjd
        rw [hstep st]
        simp only [upd]
        rw [if_neg hjd, if_neg hjp]
      · rw [hstep st]
        simp [upd, PAYLOAD_IDX, DATA_IDX]
      · intro st2
        rw [hstep st2, hstep st]
        exact ⟨rfl, rfl⟩
      · rw [if_neg hr, if_neg hne, hstep st]
        exact ⟨by simp [upd], rfl⟩

end BladeRF

namespace BladeRF

/-- Read frame for the LMS transceiver: control byte 0x90 (READ, device
1), first tuple address 5. -/
def lmsReq : Nat → Nat := fun i => if i = 0 then 0x90 else if i = 2 then 5 else 0

/-- C7 witness: a single-tuple LMS read of address 5. -/
theorem chip_access_single_tuple_witness :
    ((lmsReq PKT_CFG_IDX % 256) &&& 0x30 = UART_PKT_DEV_LMS) ∧
    ((lmsReq PKT_CFG_IDX % 256) &&& 0x80 ≠ 0) ∧
    ((pkt_legacy env0 lmsReq zeroFn initState).st = initState ∧
     (∀ j, j ≠ PAYLOAD_IDX → j ≠ DATA_IDX →
       (pkt_legacy env0 lmsReq zeroFn initState).resp j = zeroFn j) ∧
     (pkt_legacy env0 lmsReq zeroFn initState).resp PAYLOAD_IDX =
       lmsReq PAYLOAD_IDX % 256 ∧
     (∀ st2 : DState,
       (pkt_legacy env0 lmsReq zeroFn st2).resp =
         (pkt_legacy env0 lmsReq zeroFn initState).resp ∧
       (pkt_legacy env0 lmsReq zeroFn st2).effs =
         (pkt_legacy env0 lmsReq zeroFn initState).effs) ∧
     (if (lmsReq PKT_CFG_IDX % 256) &&& 0x80 ≠ 0 then
       (if (lmsReq PKT_CFG_IDX % 256) &&& 0x30 = UART_PKT_DEV_LMS then
         (pkt_legacy env0 lmsReq zeroFn initState).resp DATA_IDX =
           env0.lms6 (lmsReq PAYLOAD_IDX % 256) % 256 ∧
         (pkt_legacy env0 lmsReq zeroFn initState).effs =
           [.lms6_read (lmsReq PAYLOAD_IDX % 256)]
       else
         (pkt_legacy env0 lmsReq zeroFn initState).resp DATA_IDX =
           env0.si5338 (lmsReq PAYLOAD_IDX % 256) % 256 ∧
         (pkt_legacy env0 lmsReq zeroFn initState).effs =
           [.si5338_read (lmsReq PAYLOAD_IDX % 256)])
     else
       ((pkt_legacy env0 lmsReq zeroFn initState).resp DATA_IDX = 0 ∧
        (if (lmsReq PKT_CFG_IDX % 256) &&& 0x30 = UART_PKT_DEV_LMS then
          (pkt_legacy env0 lmsReq zeroFn initState).effs =
            [.lms6_write (lmsReq PAYLOAD_IDX % 256) (lmsReq DATA_IDX % 256)]
        else
          (pkt_legacy env0 lmsReq zeroFn initState).effs =
            [.si5338_write (lmsReq PAYLOAD_IDX % 256) (lmsReq DATA_IDX % 256)])))) :=
  ⟨by decide, by decide,
   chip_access_single_tuple env0 lmsReq zeroFn initState
     (Or.inl (by decide)) (Or.inl (by decide))⟩

/-- Every call made by `perform_config_read` is a read accessor. -/
lemma perform_config_read_no_write (env : Env) (p : ConfigParam) :
    ∀ e ∈ (perform_config_read env p).2, isWriteEffect e = false := by
  cases p <;> simp [perform_config_read, isWriteEffect]

/-- The read loop only ever appends read accessor calls to the trace. -/
lemma readLoop_no_write (env : Env) (req : Nat → Nat) :
    ∀ (fuel idx : Nat) (resp : Nat → Nat) (st : RWState) (effs : List Effect),
      (∀ e ∈ effs, isWriteEffect e = false) →
      ∀ e ∈ (readLoop env req fuel idx resp st effs).effs, isWriteEffect e = false := by
  intro fuel
  induction fuel with
  | zero => intro idx resp st effs h; exact h
  | succ f ih =>
      intro idx resp st effs h
      simp only [readLoop]
      by_cases h0 : st.n = 0
      · simp only [if_pos h0]
        have h1 : ∀ e ∈ effs ++
            (perform_config_read env (lookup_param (req PAYLOAD_IDX % 256))).2,
            isWriteEffect e = false := by
          intro e he
          rcases List.mem_append.mp he with he | he
          · exact h e he
          · exact perform_config_read_no_write env _ e he
        split
        · exact h1
        · exact ih _ _ _ _ h1
      · simp only [if_neg h0]
        split
        · exact h
        · exact ih _ _ _ _ h

/-- The whole read path makes no write accessor call. -/
lemma legacy_pkt_read_no_write (env : Env) (dev_id count : Nat)
    (req resp : Nat → Nat) (st : DState) :
    ∀ e ∈ (legacy_pkt_read env dev_id count req resp st).effs,
      isWriteEffect e = false := by
  unfold legacy_pkt_read
  repeat' split
  · simp [isWriteEffect]
  · simp [isWriteEffect]
  · exact readLoop_no_write env req count PAYLOAD_IDX resp st.rd [] (by simp)
  · simp

/-- C10: a frame with both direction bits set is dispatched through the
read path only: the result is exactly that of `legacy_pkt_read`, and no
write accessor is called. -/
theorem read_priority_over_write (env : Env) (req resp : Nat → Nat) (st : DState)
    (hr : (req PKT_CFG_IDX % 256) &&& 0x80 ≠ 0)
    (_hw : (req PKT_CFG_IDX % 256) &&& 0x40 ≠ 0) :
    pkt_legacy env req resp st =
      legacy_pkt_read env ((req PKT_CFG_IDX % 256) &&& 0x30)
        ((req PKT_CFG_IDX % 256) &&& 0x7) req resp st ∧
    ∀ e ∈ (pkt_legacy env req resp st).effs, isWriteEffect e = false := by
  have h1 : pkt_legacy env req resp st =
      legacy_pkt_read env ((req PKT_CFG_IDX % 256) &&& 0x30)
        ((req PKT_CFG_IDX % 256) &&& 0x7) req resp st := by
    simp only [pkt_legacy, if_pos hr]
  refine ⟨h1, ?_⟩
  rw [h1]
  exact legacy_pkt_read_no_write env _ _ req resp st

/-- Frame with both the READ and the WRITE bit set (control byte 0xC0,
device CONFIG, count 0). -/
def bothReq : Nat → Nat := fun i => if i = 0 then 0xC0 else 0

/-- C10 witness: the both-bits frame takes the read path. -/
theorem read_priority_over_write_witness :
    ((bothReq PKT_CFG_IDX % 256) &&& 0x80 ≠ 0) ∧
    ((bothReq PKT_CFG_IDX % 256) &&& 0x40 ≠ 0) ∧
    (pkt_legacy env0 bothReq zeroFn initState =
      legacy_pkt_read env0 ((bothReq PKT_CFG_IDX % 256) &&& 0x30)
        ((bothReq PKT_CFG_IDX % 256) &&& 0x7) bothReq zeroFn initState ∧
     ∀ e ∈ (pkt_legacy env0 bothReq zeroFn initState).effs,
       isWriteEffect e = false) :=
  ⟨by decide, by decide,
   read_priority_over_write env0 bothReq zeroFn initState (by decide) (by decide)⟩

end BladeRF

namespace BladeRF

set_option maxHeartbeats 1600000 in
/-- C5 (amended to `4 ≤ count`): a read of an 8-byte parameter started
from idle with `4 ≤ count ≤ 7` identical on both frames is served in
exactly two frames: the first frame fetches the value through the gateway
(the only gateway call of the whole transfer), leaves the transfer
mid-flight at byte index `count`, and delivers value bytes 0 to
`count - 1` least-significant-first in increasing index order; the second
frame resumes at byte index `count`, delivers the remaining bytes in
increasing index order, makes no gateway call and ends with the statics
reset to idle. -/
theorem timestamp_read_two_frames (env : Env) (c : Nat) (p : ConfigParam)
    (req1 req2 resp1 resp2 : Nat → Nat)
    (hc4 : 4 ≤ c) (hc7 : c ≤ 7)
    (hp : lookup_param (req1 PAYLOAD_IDX % 256) = p) (hlen : cfgLen p = 8) :
    (legacy_config_read env c req1 resp1 idleRead).st.param = p ∧
    (legacy_config_read env c req1 resp1 idleRead).st.n = c ∧
    (legacy_config_read env c req2 resp2
      (legacy_config_read env c req1 resp1 idleRead).st).st = idleRead ∧
    (legacy_config_read env c req1 resp1 idleRead).effs =
      (perform_config_read env p).2 ∧
    (legacy_config_read env c req2 resp2
      (legacy_config_read env c req1 resp1 idleRead).st).effs = [] ∧
    (∀ k, k < c →
      (legacy_config_read env c req1 resp1 idleRead).resp (DATA_IDX + 2 * k) =
        ((perform_config_read env p).1 >>> (k * 8)) % 256) ∧
    (∀ k, c ≤ k → k < 8 →
      (legacy_config_read env c req2 resp2
        (legacy_config_read env c req1 resp1 idleRead).st).resp
          (DATA_IDX + 2 * (k - c)) =
        ((perform_config_read env p).1 >>> (k * 8)) % 256) := by
  subst hp
  simp only [PAYLOAD_IDX] at hlen
  interval_cases c <;>
    refine ⟨?_, ?_, ?_, ?_, ?_, ?_, ?_⟩ <;>
      first
      | (simp [legacy_config_read, readLoop, idleRead, hlen,
           PAYLOAD_IDX, DATA_IDX]; done)
      | (intro k hk
         interval_cases k <;>
           simp [legacy_config_read, readLoop, idleRead, hlen, upd,
             PAYLOAD_IDX, DATA_IDX])
      | (intro k hk hk2
         interval_cases k <;>
           simp [legacy_config_read, readLoop, idleRead, hlen, upd,
             PAYLOAD_IDX, DATA_IDX])

end BladeRF

namespace BladeRF

/-- Request whose first tuple address is 16, the RX timestamp base. -/
def tsReq : Nat → Nat := fun i => if i = 2 then 16 else 0

/-- C5 witness: two count-7 frames reading the 8-byte RX timestamp. -/
theorem timestamp_read_two_frames_witness :
    (4 ≤ 7 ∧ 7 ≤ 7 ∧
      lookup_param (tsReq PAYLOAD_IDX % 256) = ConfigParam.rx_timestamp ∧
      cfgLen ConfigParam.rx_timestamp = 8) ∧
    ((legacy_config_read env0 7 tsReq zeroFn idleRead).st.param =
        ConfigParam.rx_timestamp ∧
     (legacy_config_read env0 7 tsReq zeroFn idleRead).st.n = 7 ∧
     (legacy_config_read env0 7 tsReq zeroFn
       (legacy_config_read env0 7 tsReq zeroFn idleRead).st).st = idleRead ∧
     (legacy_config_read env0 7 tsReq zeroFn idleRead).effs =
       (perform_config_read env0 ConfigParam.rx_timestamp).2 ∧
     (legacy_config_read env0 7 tsReq zeroFn
       (legacy_config_read env0 7 tsReq zeroFn idleRead).st).effs = [] ∧
     (∀ k, k < 7 →
       (legacy_config_read env0 7 tsReq zeroFn idleRead).resp (DATA_IDX + 2 * k) =
         ((perform_config_read env0 ConfigParam.rx_timestamp).1 >>> (k * 8)) % 256) ∧
     (∀ k, 7 ≤ k → k < 8 →
       (legacy_config_read env0 7 tsReq zeroFn
         (legacy_config_read env0 7 tsReq zeroFn idleRead).st).resp
           (DATA_IDX + 2 * (k - 7)) =
         ((perform_config_read env0 ConfigParam.rx_timestamp).1 >>> (k * 8)) % 256)) :=
  ⟨⟨by decide, by decide, by decide, by decide⟩,
   timestamp_read_two_frames env0 7 ConfigParam.rx_timestamp tsReq tsReq zeroFn zeroFn
     (by decide) (by decide) (by decide) (by decide)⟩

end BladeRF
